import Mathlib

/-!
Verification of the AIKnowledgeBase RAG workflow engine.

The development shallowly embeds the Python sources under `src/backend`:
`rag/state.py` (the `State` TypedDict), `rag/search_rag.py`
(`SearchRAGWorkflow`), `rag/suggestion_rag.py` (`SuggestionRAGWorkflow`)
and `repository/chroma.py` (`ChromaDB.similarity_search` / `retrieve`).

External capability providers (the retriever, the LLM in free-text and
structured-output mode, and the Tavily web searcher) are modelled as pure
functions gathered in a `Providers` record; each node passes them exactly
the data the Python code extracts from the state (the `"\n\n"`-joined
document contents, the question, ...).

The graph executor itself is the `langgraph` library, which is not part of
this repository's sources; it is modelled from the spec (section 4.1):
a running state threaded through named nodes, each node returning a partial
update that is merged by per-key overwrite (fields absent from the update
are preserved), static and conditional edges evaluated on the merged state,
sequential execution from START until END.  At runtime the state is a
Python dict, so it is embedded as an association list from string keys to
values.
-/

namespace RAG

/-- A retrieved document as the workflow handles it: a dict with
`page_content` and `metadata` keys (see `ChromaDB.retrieve` and
`SearchRAGWorkflow.web_search`). -/
structure Document where
  page_content : String
  metadata : List (String × String)
deriving Repr, DecidableEq

/-- Runtime values stored in the workflow state dict. -/
inductive Value where
  | str : String → Value
  | rat : ℚ → Value
  | docs : List Document → Value
  | strs : List String → Value
deriving Repr, DecidableEq

/-- The running workflow state: at runtime a Python dict with string keys
(`State` is a TypedDict). -/
abbrev Dict := List (String × Value)

/-- A partial state update returned by a node (a Python dict). -/
abbrev Update := List (String × Value)

/-- Dict lookup, as Python `state[key]` resolves a key. -/
def getVal : Dict → String → Option Value
  | [], _ => none
  | (k, v) :: rest, key => if k = key then some v else getVal rest key

/-- Modelled from the spec: the Graph Executor's merge of a node's partial
update into the running state — per-key overwrite, keys absent from the
update preserved unchanged ("overwrite-if-present, else preserve"). -/
def applyUpdate (st : Dict) (u : Update) : Dict := u ++ st

/-- The field names declared by the `State` TypedDict in
`src/backend/rag/state.py`. -/
def stateFields : List String :=
  ["question", "answer", "documents", "confidence", "suggestions", "missing_info"]

/-- `"\n\n".join(doc["page_content"] for doc in documents)` -/
def joinDocs (ds : List Document) : String :=
  String.intercalate "\n\n" (ds.map (fun d => d.page_content))

/-- Result of the structured `ConfidenceScore` LLM call
(`search_rag.py` / `suggestion_rag.py`). -/
structure ConfidenceScore where
  confidence : ℚ
  missing_info : List String
  suggestions : List String
deriving Repr, DecidableEq

/-- Result of the structured `Suggestion` LLM call (`suggestion_rag.py`). -/
structure Suggestion where
  suggestions : List String
  missing_info : List String
deriving Repr, DecidableEq

/-- The external capability providers, as pure functions.  Each function
receives exactly the data the Python node extracts from the state and
embeds into its prompt. -/
structure Providers where
  /-- `retriever.retrieve(question, n_results, rerank_top_k)` -/
  retrieve : String → ℕ → ℕ → List Document
  /-- structured `DocumentRelevanceScore` call: context, question ↦ binary_score -/
  gradeDocs : String → String → String
  /-- free-text generation: context, question ↦ answer content -/
  generateAnswer : String → String → String
  /-- `TavilySearch.invoke({"query": q})`: the `content` of each result -/
  webSearch : String → List String
  /-- structured `ConfidenceScore` call: context, question, answer -/
  checkConfidence : String → String → String → ConfidenceScore
  /-- structured `QuestionRewrite` call: question, suggestions, missing_info ↦ query -/
  rewriteQuery : String → String → String → String
  /-- structured `Suggestion` call (suggestion variant): question -/
  enrich : String → Suggestion

/-- A compiled workflow graph: each node maps the current state to a partial
update (plus the number of Generator calls it makes), and `next` gives the
node run after `n`, evaluated on the merged state (`none` = END). -/
structure Graph (Node : Type) where
  runNode : Node → Dict → Except String (Update × ℕ)
  next : Dict → Node → Except String (Option Node)

/-- Modelled from the spec: the Graph Executor's driving loop — run the
node, merge its partial update, follow the (conditional) edge, repeat until
END.  The repository's code configures no iteration bound of its own, so
the step budget is a parameter; exhausting it is the underlying executor's
recursion error, not a normal return. -/
def runFrom {Node : Type} (G : Graph Node) : ℕ → Node → Dict → Except String Dict
  | 0, _, _ => .error "GraphRecursionError"
  | fuel + 1, n, st =>
    match G.runNode n st with
    | .error e => .error e
    | .ok (u, _) =>
      match G.next (applyUpdate st u) n with
      | .error e => .error e
      | .ok none => .ok (applyUpdate st u)
      | .ok (some n') => runFrom G fuel n' (applyUpdate st u)

/-- `State(question=question)`: the initial state of one invocation. -/
def initState (question : String) : Dict := [("question", Value.str question)]

/-- A terminating execution of a compiled graph from node `n` on state
`st`, recording the sequence of nodes run and the result. -/
inductive Exec {Node : Type} (G : Graph Node) : Node → Dict → List Node → Except String Dict → Prop
  | nodeErr {n st e} :
      G.runNode n st = .error e →
      Exec G n st [n] (.error e)
  | edgeErr {n st u c e} :
      G.runNode n st = .ok (u, c) →
      G.next (applyUpdate st u) n = .error e →
      Exec G n st [n] (.error e)
  | halt {n st u c} :
      G.runNode n st = .ok (u, c) →
      G.next (applyUpdate st u) n = .ok none →
      Exec G n st [n] (.ok (applyUpdate st u))
  | step {n st u c n' tr r} :
      G.runNode n st = .ok (u, c) →
      G.next (applyUpdate st u) n = .ok (some n') →
      Exec G n' (applyUpdate st u) tr r →
      Exec G n st (n :: tr) r

end RAG

namespace SearchRAG

open RAG

/-- The named nodes registered by `SearchRAGWorkflow.build`. -/
inductive Node where
  | retrieve
  | grade_documents
  | generate
  | transform_query
  | web_search
  | check_confidence
  | query_rewrite
deriving Repr, DecidableEq

/-- `SearchRAGWorkflow.retrieve`: look the question up, call the retriever
with `n_results=5, rerank_top_k=3`, return only the `documents` field. -/
def retrieve (P : Providers) (st : Dict) : Except String (Update × ℕ) :=
  match getVal st "question" with
  | some (.str question) => .ok ([("documents", Value.docs (P.retrieve question 5 3))], 0)
  | _ => .error "KeyError: question"

/-- `SearchRAGWorkflow.check_documents`: on an empty DocumentSet return
`relevant = 'no'` at once (no Generator call); otherwise join the document
contents and make one structured classifier call. -/
def check_documents (P : Providers) (st : Dict) : Except String (Update × ℕ) :=
  match getVal st "documents" with
  | some (.docs ds) =>
    if ds.length = 0 then .ok ([("relevant", Value.str "no")], 0)
    else
      match getVal st "question" with
      | some (.str question) =>
          .ok ([("relevant", Value.str (P.gradeDocs (joinDocs ds) question))], 1)
      | _ => .error "KeyError: question"
  | _ => .error "KeyError: documents"

/-- `SearchRAGWorkflow.decide_to_generate`: route on `state["relevant"]`. -/
def decide_to_generate (st : Dict) : Except String String :=
  match getVal st "relevant" with
  | some (.str relevant) => .ok (if relevant = "no" then "web_search" else "generate")
  | _ => .error "KeyError: relevant"

/-- `SearchRAGWorkflow.generate`: one free-text Generator call on the
joined context and the question, returning only the `answer` field. -/
def generate (P : Providers) (st : Dict) : Except String (Update × ℕ) :=
  match getVal st "documents", getVal st "question" with
  | some (.docs ds), some (.str question) =>
      .ok ([("answer", Value.str (P.generateAnswer (joinDocs ds) question))], 1)
  | _, _ => .error "KeyError: documents/question"

/-- `SearchRAGWorkflow.web_search`: search the current question, join the
result contents with `"\n"`, and return a `documents` field holding exactly
one synthetic document tagged `source=web_search`. -/
def web_search (P : Providers) (st : Dict) : Except String (Update × ℕ) :=
  match getVal st "question" with
  | some (.str question) =>
      .ok ([("documents",
             Value.docs [⟨String.intercalate "\n" (P.webSearch question),
                          [("source", "web_search")]⟩])], 0)
  | _ => .error "KeyError: question"

/-- `SearchRAGWorkflow.check_confidence`: one structured `ConfidenceScore`
call on context, question and answer; returns the `suggestions`,
`missing_info` and `confidence` fields. -/
def check_confidence (P : Providers) (st : Dict) : Except String (Update × ℕ) :=
  match getVal st "documents", getVal st "question", getVal st "answer" with
  | some (.docs ds), some (.str question), some (.str answer) =>
      .ok ([("suggestions", Value.strs (P.checkConfidence (joinDocs ds) question answer).suggestions),
            ("missing_info", Value.strs (P.checkConfidence (joinDocs ds) question answer).missing_info),
            ("confidence", Value.rat (P.checkConfidence (joinDocs ds) question answer).confidence)], 1)
  | _, _, _ => .error "KeyError: documents/question/answer"

/-- `SearchRAGWorkflow.decide_end`: `score > 0.9` ↦ `"complete"`,
otherwise `"incomplete"`. -/
def decide_end (st : Dict) : Except String String :=
  match getVal st "confidence" with
  | some (.rat score) => .ok (if score > 9/10 then "complete" else "incomplete")
  | _ => .error "KeyError: confidence"

/-- `SearchRAGWorkflow.query_rewrite`: one structured `QuestionRewrite`
call.  The Python body is `return {question: output.query}` — the key of
the returned dict is the *value* of the local variable `question` (the
current question string), not the literal string `"question"`. -/
def query_rewrite (P : Providers) (st : Dict) : Except String (Update × ℕ) :=
  match getVal st "suggestions", getVal st "question", getVal st "missing_info" with
  | some (.strs suggestions), some (.str question), some (.strs missing_info) =>
      .ok ([(question,
             Value.str (P.rewriteQuery question
               (String.intercalate "\n" suggestions)
               (String.intercalate "\n" missing_info)))], 1)
  | _, _, _ => .error "KeyError: suggestions/question/missing_info"

/-- Node dispatch, as registered by `build` via `add_node` (the
`transform_query` node is registered with the `retrieve` function). -/
def runNode (P : Providers) : Node → Dict → Except String (Update × ℕ)
  | .retrieve => retrieve P
  | .grade_documents => check_documents P
  | .generate => generate P
  | .transform_query => retrieve P
  | .web_search => web_search P
  | .check_confidence => check_confidence P
  | .query_rewrite => query_rewrite P

/-- The edges added by `build`.  `grade_documents` and `check_confidence`
have conditional edges (`decide_to_generate`, `decide_end`) evaluated on
the merged state; `check_confidence` also has a redundant static edge to
END, which adds no node to run.  `transform_query` has no outgoing edge
and is unreachable (no incoming edge). -/
def next (st : Dict) : Node → Except String (Option Node)
  | .retrieve => .ok (some .grade_documents)
  | .grade_documents =>
    match decide_to_generate st with
    | .error e => .error e
    | .ok lbl =>
      if lbl = "web_search" then .ok (some .web_search)
      else if lbl = "generate" then .ok (some .generate)
      else .error "ConfigurationError"
  | .generate => .ok (some .check_confidence)
  | .transform_query => .ok none
  | .web_search => .ok (some .generate)
  | .check_confidence =>
    match decide_end st with
    | .error e => .error e
    | .ok lbl =>
      if lbl = "incomplete" then .ok (some .query_rewrite)
      else if lbl = "complete" then .ok none
      else .error "ConfigurationError"
  | .query_rewrite => .ok (some .web_search)

/-- The compiled search-variant graph. -/
def graph (P : Providers) : Graph Node := ⟨runNode P, next⟩

/-- `SearchRAGWorkflow.invoke`: run the compiled graph from START (whose
single edge leads to `retrieve`) on `State(question=question)`.  The step
budget stands for the underlying executor's recursion limit; the
repository's code sets and handles none. -/
def invoke (P : Providers) (fuel : ℕ) (question : String) : Except String Dict :=
  runFrom (graph P) fuel .retrieve (initState question)

end SearchRAG

namespace SuggestionRAG

open RAG

/-- The named nodes registered by `SuggestionRAGWorkflow.build`. -/
inductive Node where
  | retrieve
  | grade_documents
  | generate
  | suggest_enrichment
  | check_confidence
deriving Repr, DecidableEq

/-- `SuggestionRAGWorkflow.retrieve`: identical to the search variant's
node — call the retriever with `n_results=5, rerank_top_k=3`. -/
def retrieve (P : Providers) (st : Dict) : Except String (Update × ℕ) :=
  match getVal st "question" with
  | some (.str question) => .ok ([("documents", Value.docs (P.retrieve question 5 3))], 0)
  | _ => .error "KeyError: question"

/-- `SuggestionRAGWorkflow.check_documents`: empty DocumentSet short-circuit
to `relevant = 'no'` with no Generator call, otherwise one structured
classifier call on the joined context. -/
def check_documents (P : Providers) (st : Dict) : Except String (Update × ℕ) :=
  match getVal st "documents" with
  | some (.docs ds) =>
    if ds.length = 0 then .ok ([("relevant", Value.str "no")], 0)
    else
      match getVal st "question" with
      | some (.str question) =>
          .ok ([("relevant", Value.str (P.gradeDocs (joinDocs ds) question))], 1)
      | _ => .error "KeyError: question"
  | _ => .error "KeyError: documents"

/-- `SuggestionRAGWorkflow.decide_to_generate`: `relevant == "no"` routes
to `suggest_enrichment`, anything else to `generate`. -/
def decide_to_generate (st : Dict) : Except String String :=
  match getVal st "relevant" with
  | some (.str relevant) => .ok (if relevant = "no" then "suggest_enrichment" else "generate")
  | _ => .error "KeyError: relevant"

/-- `SuggestionRAGWorkflow.generate`: one free-text Generator call. -/
def generate (P : Providers) (st : Dict) : Except String (Update × ℕ) :=
  match getVal st "documents", getVal st "question" with
  | some (.docs ds), some (.str question) =>
      .ok ([("answer", Value.str (P.generateAnswer (joinDocs ds) question))], 1)
  | _, _ => .error "KeyError: documents/question"

/-- The fixed placeholder answer set by `suggest_enrichment` (verbatim from
the source). -/
def placeholderAnswer : String :=
  "Sorry, Relevant document found to answer the query. Check answer details for suggestions"

/-- `SuggestionRAGWorkflow.suggest_enrichment`: one structured `Suggestion`
call on the question; returns the fixed placeholder answer, the
suggestions, the missing information and confidence `0.0`. -/
def suggest_enrichment (P : Providers) (st : Dict) : Except String (Update × ℕ) :=
  match getVal st "question" with
  | some (.str question) =>
      .ok ([("answer", Value.str placeholderAnswer),
            ("suggestions", Value.strs (P.enrich question).suggestions),
            ("missing_info", Value.strs (P.enrich question).missing_info),
            ("confidence", Value.rat 0)], 1)
  | _ => .error "KeyError: question"

/-- `SuggestionRAGWorkflow.check_confidence`: one structured
`ConfidenceScore` call. -/
def check_confidence (P : Providers) (st : Dict) : Except String (Update × ℕ) :=
  match getVal st "documents", getVal st "question", getVal st "answer" with
  | some (.docs ds), some (.str question), some (.str answer) =>
      .ok ([("suggestions", Value.strs (P.checkConfidence (joinDocs ds) question answer).suggestions),
            ("missing_info", Value.strs (P.checkConfidence (joinDocs ds) question answer).missing_info),
            ("confidence", Value.rat (P.checkConfidence (joinDocs ds) question answer).confidence)], 1)
  | _, _, _ => .error "KeyError: documents/question/answer"

/-- Node dispatch, per `build`'s `add_node` calls. -/
def runNode (P : Providers) : Node → Dict → Except String (Update × ℕ)
  | .retrieve => retrieve P
  | .grade_documents => check_documents P
  | .generate => generate P
  | .suggest_enrichment => suggest_enrichment P
  | .check_confidence => check_confidence P

/-- The edges added by `build`: `retrieve → grade_documents`, a conditional
edge out of `grade_documents`, `suggest_enrichment → END`,
`generate → check_confidence`, `check_confidence → END`. -/
def next (st : Dict) : Node → Except String (Option Node)
  | .retrieve => .ok (some .grade_documents)
  | .grade_documents =>
    match decide_to_generate st with
    | .error e => .error e
    | .ok lbl =>
      if lbl = "suggest_enrichment" then .ok (some .suggest_enrichment)
      else if lbl = "generate" then .ok (some .generate)
      else .error "ConfigurationError"
  | .generate => .ok (some .check_confidence)
  | .suggest_enrichment => .ok none
  | .check_confidence => .ok none

/-- The compiled suggestion-variant graph. -/
def graph (P : Providers) : Graph Node := ⟨runNode P, next⟩

/-- `SuggestionRAGWorkflow.invoke`. -/
def invoke (P : Providers) (fuel : ℕ) (question : String) : Except String Dict :=
  runFrom (graph P) fuel .retrieve (initState question)

end SuggestionRAG

namespace ChromaDB

open RAG

/-- The per-query slice of `collection.query`'s return value
(`results["ids"][0]`, `results["documents"][0]`, `results["metadatas"][0]`),
already truncated to `n_results` in the provider's own order. -/
structure QueryResult where
  ids : List String
  documents : List String
  metadatas : List (List (String × String))
deriving Repr, DecidableEq

/-- One scored rerank row: `(score, id, document, metadata)` as zipped by
`similarity_search`. -/
abbrev Row := ℚ × String × String × List (String × String)

/-- Insert into an already sorted list, keeping ascending score order and
stability (an element is placed before the first row whose score is not
strictly smaller). -/
def insertRow (a : Row) : List Row → List Row
  | [] => [a]
  | b :: l => if b.1 < a.1 then b :: insertRow a l else a :: b :: l

/-- Python's `sorted(rows, key=lambda x: x[0], reverse=False)`: a stable
sort ascending by the score component, modelled as stable insertion sort
(any stable ascending sort computes the same list). -/
def sortRows : List Row → List Row
  | [] => []
  | a :: l => insertRow a (sortRows l)

/-- `ChromaDB.similarity_search`: query the collection, then — when a
reranker and `rerank_top_k` are both set — score the top `rerank_top_k`
documents with the cross-encoder and sort those rows by score with
`reverse=False` (ascending).  The collection's raw reply is a parameter
(`collectionQuery`), as is the reranker's `predict` (scoring one
query/document pair). -/
def similarity_search (collectionQuery : String → ℕ → QueryResult)
    (reranker : Option (String → String → ℚ))
    (query : String) (n_results : ℕ) (rerank_top_k : Option ℕ) : QueryResult :=
  let result := collectionQuery query n_results
  match reranker, rerank_top_k with
  | some predict, some k =>
      let scores := (result.documents.take k).map (predict query)
      let reranked_results := sortRows
        (scores.zip ((result.ids.take k).zip
          ((result.documents.take k).zip (result.metadatas.take k))))
      { ids := reranked_results.map (fun item => item.2.1),
        documents := reranked_results.map (fun item => item.2.2.1),
        metadatas := reranked_results.map (fun item => item.2.2.2) }
  | _, _ => result

/-- `ChromaDB.retrieve`: run `similarity_search` and package each returned
document content with its metadata as a Document dict. -/
def retrieve (collectionQuery : String → ℕ → QueryResult)
    (reranker : Option (String → String → ℚ))
    (query : String) (n_results : ℕ) (rerank_top_k : Option ℕ) : List Document :=
  let search_results := similarity_search collectionQuery reranker query n_results rerank_top_k
  (search_results.documents.zip search_results.metadatas).map
    (fun p => { page_content := p.1, metadata := p.2 })

end ChromaDB

namespace RAG

/-- `true` exactly when the executor returned a final state rather than an
error. -/
def isOkResult : Except String Dict → Bool
  | .ok _ => true
  | .error _ => false

/-- Deterministic stub providers used to exercise the workflows; the
confidence judge always answers `1/2`. -/
def stubProviders : Providers where
  retrieve := fun _ _ _ => [{ page_content := "local doc", metadata := [] }]
  gradeDocs := fun _ _ => "yes"
  generateAnswer := fun _ _ => "an answer"
  webSearch := fun _ => ["web result one", "web result two"]
  checkConfidence := fun _ _ _ =>
    { confidence := 1/2, missing_info := ["a missing fact"], suggestions := ["a suggestion"] }
  rewriteQuery := fun _ _ _ => "a rewritten query"
  enrich := fun _ => { suggestions := ["add docs"], missing_info := ["topic"] }

/-- Stub providers whose confidence judge always answers `1 > 0.9`. -/
def confidentProviders : Providers :=
  { stubProviders with checkConfidence := fun _ _ _ =>
      { confidence := 1, missing_info := [], suggestions := [] } }

end RAG

namespace SuggestionRAG

open RAG

/-- The partial update returned by `suggest_enrichment` on question `q`. -/
def enrichUpdate (P : Providers) (q : String) : Update :=
  [("answer", Value.str placeholderAnswer),
   ("suggestions", Value.strs (P.enrich q).suggestions),
   ("missing_info", Value.strs (P.enrich q).missing_info),
   ("confidence", Value.rat 0)]

end SuggestionRAG

open RAG

/-- The raw collection reply used to exhibit the reranking order defect. -/
def c4Collection : String → ℕ → ChromaDB.QueryResult :=
  fun _ _ => { ids := ["idA", "idB"], documents := ["A", "B"], metadatas := [[], []] }

/-- A cross-encoder stub scoring document `A` as more relevant (score `1`)
than document `B` (score `0`). -/
def c4Reranker : String → String → ℚ := fun _ d => if d = "A" then 1 else 0

/-- The node trace of the confident stub run of the search variant. -/
def c9Trace : List SearchRAG.Node := [.retrieve, .grade_documents, .generate, .check_confidence]

/-- The final state of the confident stub run of the search variant. -/
def c9Final : Dict :=
  [("suggestions", Value.strs []), ("missing_info", Value.strs []), ("confidence", Value.rat 1),
   ("answer", Value.str "an answer"), ("relevant", Value.str "yes"),
   ("documents", Value.docs [{ page_content := "local doc", metadata := [] }]),
   ("question", Value.str "a question")]

/-- The state holds a string under key `k`. -/
def hasStr (st : Dict) (k : String) : Prop := ∃ s, getVal st k = some (Value.str s)

/-- The state holds a DocumentSet under `documents`. -/
def hasDocs (st : Dict) : Prop := ∃ ds, getVal st "documents" = some (Value.docs ds)

/-- The state holds a string list under key `k`. -/
def hasStrs (st : Dict) (k : String) : Prop := ∃ l, getVal st k = some (Value.strs l)

/-- What the Web Search node needs from the state. -/
def invWeb (st : Dict) : Prop := hasStr st "question"

/-- What the Generate node needs from the state. -/
def invGen (st : Dict) : Prop := hasStr st "question" ∧ hasDocs st

/-- What the Confidence Check node needs from the state. -/
def invConf (st : Dict) : Prop := invGen st ∧ hasStr st "answer"

/-- What the Query Rewrite node needs from the state. -/
def invRewrite (st : Dict) : Prop :=
  invConf st ∧ hasStrs st "suggestions" ∧ hasStrs st "missing_info"

namespace RAG

/-- Consing an entry for a different key does not change a lookup. -/
theorem getVal_cons_ne {k k' : String} (v : Value) (st : Dict) (h : k ≠ k') :
    getVal ((k, v) :: st) k' = getVal st k' := by
  simp [getVal, h]

/-- The executor's merge leaves every key absent from the update unchanged. -/
theorem getVal_applyUpdate_not_mem (st : Dict) (u : Update) (k : String)
    (h : k ∉ u.map Prod.fst) :
    getVal (applyUpdate st u) k = getVal st k := by
  induction u with
  | nil => rfl
  | cons a u ih =>
    obtain ⟨k1, v1⟩ := a
    simp only [List.map_cons, List.mem_cons, not_or] at h
    show getVal ((k1, v1) :: (u ++ st)) k = getVal st k
    rw [getVal_cons_ne v1 (u ++ st) (fun he => h.1 he.symm)]
    exact ih h.2

/-- Executions of a compiled graph are deterministic: from one node and
state there is exactly one node trace and one result. -/
theorem Exec.deterministic {Node : Type} {G : Graph Node} {n : Node} {st : Dict}
    {tr1 tr2 : List Node} {r1 r2 : Except String Dict}
    (h1 : Exec G n st tr1 r1) (h2 : Exec G n st tr2 r2) : tr1 = tr2 ∧ r1 = r2 := by
  induction h1 generalizing tr2 r2 with
  | nodeErr h => cases h2 <;> simp_all
  | edgeErr hn he => cases h2 <;> simp_all
  | halt hn he => cases h2 <;> simp_all
  | step hn he htail ih =>
    cases h2 with
    | nodeErr h' => simp_all
    | edgeErr h' he' => simp_all
    | halt h' he' => simp_all
    | step h' he' htail' =>
      rw [hn] at h'
      simp only [Except.ok.injEq, Prod.mk.injEq] at h'
      obtain ⟨rfl, rfl⟩ := h'
      rw [he] at he'
      simp only [Except.ok.injEq, Option.some.injEq] at he'
      subst he'
      obtain ⟨ht, hr⟩ := ih htail'
      exact ⟨by rw [ht], hr⟩

end RAG


open RAG

/-- C3: after the Confidence Check node, the executor goes to END exactly
when the score exceeds `0.9` and to the Query Rewrite node exactly when it
does not; the two successors are exclusive and exhaustive. -/
theorem c3_confidence_branch_exclusive_exhaustive (st : Dict) (c : ℚ)
    (h : getVal st "confidence" = some (.rat c)) :
    (SearchRAG.next st .check_confidence = .ok none ↔ c > 9/10) ∧
    (SearchRAG.next st .check_confidence = .ok (some .query_rewrite) ↔ c ≤ 9/10) := by
  unfold SearchRAG.next SearchRAG.decide_end
  rw [h]
  by_cases hc : c > 9/10
  · simp [hc]
  · simp [hc, le_of_not_lt hc]

/-- Witness for C3 at confidence `1` (complete) and `1/2` (incomplete). -/
theorem c3_confidence_branch_witness :
    getVal [("confidence", Value.rat 1)] "confidence" = some (Value.rat 1) ∧
    SearchRAG.next [("confidence", Value.rat 1)] .check_confidence = .ok none ∧
    SearchRAG.next [("confidence", Value.rat (1/2))] .check_confidence = .ok (some .query_rewrite) :=
  ⟨rfl,
   (c3_confidence_branch_exclusive_exhaustive [("confidence", Value.rat 1)] 1 rfl).1.mpr (by norm_num),
   (c3_confidence_branch_exclusive_exhaustive [("confidence", Value.rat (1/2))] (1/2) rfl).2.mpr
     (by norm_num)⟩

/-- C5: on an empty DocumentSet both Grade nodes yield `relevant = 'no'`
with zero Generator calls, and the decide-to-generate branch on the merged
state routes to Web Search (search variant) and Enrichment Suggestion
(suggestion variant). -/
theorem c5_empty_documents_short_circuit (P : Providers) (st : Dict)
    (h : getVal st "documents" = some (.docs [])) :
    SearchRAG.check_documents P st = .ok ([("relevant", Value.str "no")], 0) ∧
    SuggestionRAG.check_documents P st = .ok ([("relevant", Value.str "no")], 0) ∧
    SearchRAG.next (applyUpdate st [("relevant", Value.str "no")]) .grade_documents =
      .ok (some .web_search) ∧
    SuggestionRAG.next (applyUpdate st [("relevant", Value.str "no")]) .grade_documents =
      .ok (some .suggest_enrichment) := by
  refine ⟨?_, ?_, ?_, ?_⟩
  · unfold SearchRAG.check_documents
    rw [h]
    rfl
  · unfold SuggestionRAG.check_documents
    rw [h]
    rfl
  · unfold SearchRAG.next SearchRAG.decide_to_generate
    simp [applyUpdate, getVal]
  · unfold SuggestionRAG.next SuggestionRAG.decide_to_generate
    simp [applyUpdate, getVal]

/-- Witness for C5 on the state whose DocumentSet is empty. -/
theorem c5_empty_documents_witness :
    getVal [("documents", Value.docs [])] "documents" = some (Value.docs []) ∧
    (SearchRAG.check_documents stubProviders [("documents", Value.docs [])] =
      .ok ([("relevant", Value.str "no")], 0) ∧
     SuggestionRAG.check_documents stubProviders [("documents", Value.docs [])] =
      .ok ([("relevant", Value.str "no")], 0) ∧
     SearchRAG.next (applyUpdate [("documents", Value.docs [])] [("relevant", Value.str "no")])
       .grade_documents = .ok (some .web_search) ∧
     SuggestionRAG.next (applyUpdate [("documents", Value.docs [])] [("relevant", Value.str "no")])
       .grade_documents = .ok (some .suggest_enrichment)) :=
  ⟨rfl, c5_empty_documents_short_circuit stubProviders [("documents", Value.docs [])] rfl⟩

/-- C6: the Web Search node returns a `documents` update holding exactly one
synthetic document (the joined web results, metadata `source=web_search`),
the merge replaces the whole DocumentSet with it, and the edge out of
Web Search always leads to Generate. -/
theorem c6_web_search_single_synthetic_document (P : Providers) (st : Dict) (q : String)
    (h : getVal st "question" = some (.str q)) :
    SearchRAG.web_search P st =
      .ok ([("documents", Value.docs [{ page_content := String.intercalate "\n" (P.webSearch q),
                                        metadata := [("source", "web_search")] }])], 0) ∧
    getVal (applyUpdate st
        [("documents", Value.docs [{ page_content := String.intercalate "\n" (P.webSearch q),
                                     metadata := [("source", "web_search")] }])]) "documents" =
      some (Value.docs [{ page_content := String.intercalate "\n" (P.webSearch q),
                          metadata := [("source", "web_search")] }]) ∧
    (∀ st2 : Dict, SearchRAG.next st2 .web_search = .ok (some .generate)) := by
  refine ⟨?_, ?_, fun st2 => rfl⟩
  · unfold SearchRAG.web_search
    rw [h]
  · simp [applyUpdate, getVal]

/-- Witness for C6 on a state that already holds an older DocumentSet. -/
theorem c6_web_search_witness :
    getVal [("question", Value.str "a question"),
            ("documents", Value.docs [{ page_content := "old doc", metadata := [] }])] "question" =
      some (Value.str "a question") ∧
    getVal (applyUpdate
        [("question", Value.str "a question"),
         ("documents", Value.docs [{ page_content := "old doc", metadata := [] }])]
        [("documents", Value.docs [{ page_content := String.intercalate "\n" (stubProviders.webSearch "a question"),
                                     metadata := [("source", "web_search")] }])]) "documents" =
      some (Value.docs [{ page_content := String.intercalate "\n" (stubProviders.webSearch "a question"),
                          metadata := [("source", "web_search")] }]) :=
  ⟨rfl,
   (c6_web_search_single_synthetic_document stubProviders
     [("question", Value.str "a question"),
      ("documents", Value.docs [{ page_content := "old doc", metadata := [] }])] "a question" rfl).2.1⟩

/-- C7: in the suggestion variant, a `not-relevant` verdict routes to the
Enrichment Suggestion node, which sets the fixed placeholder answer and
confidence exactly `0`, and which is terminal: the executor returns the
merged state right after it, running no further node. -/
theorem c7_enrichment_terminal_zero_confidence (P : Providers) (st st2 : Dict) (q : String)
    (hrel : getVal st2 "relevant" = some (.str "no"))
    (hq : getVal st "question" = some (.str q)) :
    SuggestionRAG.next st2 .grade_documents = .ok (some .suggest_enrichment) ∧
    SuggestionRAG.suggest_enrichment P st = .ok (SuggestionRAG.enrichUpdate P q, 1) ∧
    getVal (applyUpdate st (SuggestionRAG.enrichUpdate P q)) "confidence" =
      some (Value.rat 0) ∧
    getVal (applyUpdate st (SuggestionRAG.enrichUpdate P q)) "answer" =
      some (Value.str SuggestionRAG.placeholderAnswer) ∧
    (∀ fuel : ℕ, runFrom (SuggestionRAG.graph P) (fuel + 1) .suggest_enrichment st =
      .ok (applyUpdate st (SuggestionRAG.enrichUpdate P q))) := by
  have hnode : SuggestionRAG.suggest_enrichment P st =
      .ok (SuggestionRAG.enrichUpdate P q, 1) := by
    unfold SuggestionRAG.suggest_enrichment SuggestionRAG.enrichUpdate
    rw [hq]
  refine ⟨?_, hnode, ?_, ?_, ?_⟩
  · unfold SuggestionRAG.next SuggestionRAG.decide_to_generate
    rw [hrel]
    rfl
  · simp [applyUpdate, SuggestionRAG.enrichUpdate, getVal]
  · simp [applyUpdate, SuggestionRAG.enrichUpdate, getVal]
  · intro fuel
    simp [runFrom, SuggestionRAG.graph, SuggestionRAG.runNode, hnode, SuggestionRAG.next]

/-- Witness for C7 with the stub providers and a bare question state. -/
theorem c7_enrichment_witness :
    getVal [("relevant", Value.str "no")] "relevant" = some (Value.str "no") ∧
    getVal [("question", Value.str "a question")] "question" = some (Value.str "a question") ∧
    getVal (applyUpdate [("question", Value.str "a question")]
      (SuggestionRAG.enrichUpdate stubProviders "a question")) "confidence" =
      some (Value.rat 0) ∧
    runFrom (SuggestionRAG.graph stubProviders) 1 .suggest_enrichment
      [("question", Value.str "a question")] =
      .ok (applyUpdate [("question", Value.str "a question")]
        (SuggestionRAG.enrichUpdate stubProviders "a question")) :=
  ⟨rfl, rfl,
   (c7_enrichment_terminal_zero_confidence stubProviders [("question", Value.str "a question")]
     [("relevant", Value.str "no")] "a question" rfl rfl).2.2.1,
   (c7_enrichment_terminal_zero_confidence stubProviders [("question", Value.str "a question")]
     [("relevant", Value.str "no")] "a question" rfl rfl).2.2.2.2 0⟩

/-- C8: the executor's merge preserves every key absent from a node's
partial update; in particular the Retrieve node returns only the
`documents` field, so every other field reads the same before and after. -/
theorem c8_merge_preserves_absent_fields :
    (∀ (st : Dict) (u : Update) (k : String), k ∉ u.map Prod.fst →
      getVal (applyUpdate st u) k = getVal st k) ∧
    (∀ (P : Providers) (st : Dict) (q : String), getVal st "question" = some (.str q) →
      SearchRAG.retrieve P st = .ok ([("documents", Value.docs (P.retrieve q 5 3))], 0) ∧
      ∀ k : String, k ≠ "documents" →
        getVal (applyUpdate st [("documents", Value.docs (P.retrieve q 5 3))]) k = getVal st k) := by
  refine ⟨getVal_applyUpdate_not_mem, fun P st q hq => ⟨?_, fun k hk => ?_⟩⟩
  · unfold SearchRAG.retrieve
    rw [hq]
  · exact getVal_applyUpdate_not_mem st _ k (by simpa using hk)

/-- Witness for C8: after Retrieve on a populated state, the question and
answer fields read exactly as before. -/
theorem c8_merge_witness :
    getVal [("question", Value.str "a question"), ("answer", Value.str "old answer")]
      "question" = some (Value.str "a question") ∧
    SearchRAG.retrieve stubProviders
      [("question", Value.str "a question"), ("answer", Value.str "old answer")] =
      .ok ([("documents", Value.docs (stubProviders.retrieve "a question" 5 3))], 0) ∧
    getVal (applyUpdate [("question", Value.str "a question"), ("answer", Value.str "old answer")]
        [("documents", Value.docs (stubProviders.retrieve "a question" 5 3))]) "answer" =
      getVal [("question", Value.str "a question"), ("answer", Value.str "old answer")] "answer" :=
  ⟨rfl,
   (c8_merge_preserves_absent_fields.2 stubProviders
     [("question", Value.str "a question"), ("answer", Value.str "old answer")] "a question" rfl).1,
   (c8_merge_preserves_absent_fields.2 stubProviders
     [("question", Value.str "a question"), ("answer", Value.str "old answer")] "a question" rfl).2
     "answer" (by decide)⟩

/-- C1 (code bug): `query_rewrite` returns `{question: output.query}` — the
dict key is the *value* of the current question, not the literal
`"question"`.  On a state whose question is `"orig question"` the update's
key is `"orig question"`, so after the merge the `question` field still
reads `"orig question"`: the improved query does not replace it. -/
theorem c1_query_rewrite_does_not_replace_question :
    SearchRAG.query_rewrite stubProviders
      [("suggestions", Value.strs ["s1"]), ("question", Value.str "orig question"),
       ("missing_info", Value.strs ["m1"])] =
      .ok ([("orig question", Value.str "a rewritten query")], 1) ∧
    getVal (applyUpdate
      [("suggestions", Value.strs ["s1"]), ("question", Value.str "orig question"),
       ("missing_info", Value.strs ["m1"])]
      [("orig question", Value.str "a rewritten query")]) "question" =
      some (Value.str "orig question") ∧
    ("a rewritten query" : String) ≠ "orig question" :=
  ⟨rfl, by decide, by decide⟩

/-- C10 (code bug): the verdict key `relevant` written by the Grade node and
read by the decide-to-generate branch is not among the fields declared by
the `State` TypedDict in `state.py`. -/
theorem c10_relevant_key_not_declared_field :
    "relevant" ∉ stateFields ∧
    (SearchRAG.check_documents stubProviders
      [("documents", Value.docs []), ("question", Value.str "a question")]).map
      (fun u => u.1.map Prod.fst) = .ok ["relevant"] ∧
    SearchRAG.decide_to_generate [("relevant", Value.str "no")] = .ok "web_search" ∧
    SearchRAG.decide_to_generate [("question", Value.str "a question")] =
      .error "KeyError: relevant" :=
  ⟨by decide, rfl, rfl, rfl⟩

/-- C4 (code bug): `similarity_search` sorts the reranked rows with
`reverse=False`, i.e. ascending by score, so `retrieve` returns the *least*
relevant reranked document first: here `B` (score `0`) comes before `A`
(score `1`). -/
theorem c4_rerank_orders_ascending_at_input :
    ChromaDB.retrieve c4Collection (some c4Reranker) "a query" 2 (some 2) =
      [{ page_content := "B", metadata := [] }, { page_content := "A", metadata := [] }] ∧
    c4Reranker "a query" "B" < c4Reranker "a query" "A" := by
  constructor
  · rfl
  · decide

/-- The confident stub run: retrieve, grade (`yes`), generate, confidence
check (`1 > 0.9` ⇒ complete). -/
theorem c9Run : Exec (SearchRAG.graph confidentProviders) .retrieve (initState "a question")
    c9Trace (.ok c9Final) := by
  have hconf : getVal c9Final "confidence" = some (Value.rat 1) := rfl
  have hlbl : SearchRAG.decide_end c9Final = .ok "complete" := by
    unfold SearchRAG.decide_end
    rw [hconf]
    norm_num
  have hnext : (SearchRAG.graph confidentProviders).next c9Final .check_confidence = .ok none := by
    show SearchRAG.next c9Final .check_confidence = .ok none
    unfold SearchRAG.next
    rw [hlbl]
    rfl
  have h4run : (SearchRAG.graph confidentProviders).runNode .check_confidence
      [("answer", Value.str "an answer"), ("relevant", Value.str "yes"),
       ("documents", Value.docs [{ page_content := "local doc", metadata := [] }]),
       ("question", Value.str "a question")] =
      .ok ([("suggestions", Value.strs []), ("missing_info", Value.strs []),
            ("confidence", Value.rat 1)], 1) := rfl
  have h4 : Exec (SearchRAG.graph confidentProviders) .check_confidence
      [("answer", Value.str "an answer"), ("relevant", Value.str "yes"),
       ("documents", Value.docs [{ page_content := "local doc", metadata := [] }]),
       ("question", Value.str "a question")]
      [.check_confidence] (.ok c9Final) := Exec.halt h4run hnext
  have h3 : Exec (SearchRAG.graph confidentProviders) .generate
      [("relevant", Value.str "yes"),
       ("documents", Value.docs [{ page_content := "local doc", metadata := [] }]),
       ("question", Value.str "a question")]
      [.generate, .check_confidence] (.ok c9Final) := Exec.step rfl rfl h4
  have h2 : Exec (SearchRAG.graph confidentProviders) .grade_documents
      [("documents", Value.docs [{ page_content := "local doc", metadata := [] }]),
       ("question", Value.str "a question")]
      [.grade_documents, .generate, .check_confidence] (.ok c9Final) := Exec.step rfl rfl h3
  exact Exec.step rfl rfl h2

/-- C9: with fixed (hence deterministic) capability providers and the same
input question, any two terminating executions of either workflow's
`invoke` graph visit the same node sequence and return the same result. -/
theorem c9_execution_deterministic :
    (∀ (P : Providers) (q : String) (tr1 tr2 : List SearchRAG.Node)
        (r1 r2 : Except String Dict),
        Exec (SearchRAG.graph P) .retrieve (initState q) tr1 r1 →
        Exec (SearchRAG.graph P) .retrieve (initState q) tr2 r2 → tr1 = tr2 ∧ r1 = r2) ∧
    (∀ (P : Providers) (q : String) (tr1 tr2 : List SuggestionRAG.Node)
        (r1 r2 : Except String Dict),
        Exec (SuggestionRAG.graph P) .retrieve (initState q) tr1 r1 →
        Exec (SuggestionRAG.graph P) .retrieve (initState q) tr2 r2 → tr1 = tr2 ∧ r1 = r2) :=
  ⟨fun _ _ _ _ _ _ h1 h2 => Exec.deterministic h1 h2,
   fun _ _ _ _ _ _ h1 h2 => Exec.deterministic h1 h2⟩

/-- Witness for C9: the concrete confident stub run, compared with itself
through the determinism theorem. -/
theorem c9_execution_witness :
    Exec (SearchRAG.graph confidentProviders) .retrieve (initState "a question")
      c9Trace (.ok c9Final) ∧
    (c9Trace = c9Trace ∧ (.ok c9Final : Except String Dict) = .ok c9Final) :=
  ⟨c9Run,
   c9_execution_deterministic.1 confidentProviders "a question" c9Trace c9Trace
     (.ok c9Final) (.ok c9Final) c9Run c9Run⟩

/-- With the always-`1/2`-confidence stub providers, the rewrite cycle
(`generate → check_confidence → query_rewrite → web_search → generate`)
never reaches END: from any of its four nodes, under that node's state
requirements, every step budget ends in the executor's recursion error. -/
theorem stubLoopNeverReturns : ∀ fuel : ℕ,
    (∀ st, invGen st →
      isOkResult (runFrom (SearchRAG.graph stubProviders) fuel .generate st) = false) ∧
    (∀ st, invConf st →
      isOkResult (runFrom (SearchRAG.graph stubProviders) fuel .check_confidence st) = false) ∧
    (∀ st, invRewrite st →
      isOkResult (runFrom (SearchRAG.graph stubProviders) fuel .query_rewrite st) = false) ∧
    (∀ st, invWeb st →
      isOkResult (runFrom (SearchRAG.graph stubProviders) fuel .web_search st) = false) := by
  intro fuel
  induction fuel with
  | zero => exact ⟨fun _ _ => rfl, fun _ _ => rfl, fun _ _ => rfl, fun _ _ => rfl⟩
  | succ fuel ih =>
    refine ⟨?_, ?_, ?_, ?_⟩
    · rintro st ⟨⟨q, hq⟩, ⟨ds, hd⟩⟩
      have hrun : (SearchRAG.graph stubProviders).runNode .generate st =
          .ok ([("answer", Value.str (stubProviders.generateAnswer (joinDocs ds) q))], 1) := by
        show SearchRAG.generate stubProviders st = _
        unfold SearchRAG.generate
        rw [hd, hq]
      have hnext : (SearchRAG.graph stubProviders).next
          (applyUpdate st [("answer", Value.str (stubProviders.generateAnswer (joinDocs ds) q))])
          .generate = .ok (some .check_confidence) := rfl
      simp only [runFrom, hrun, hnext]
      refine ih.2.1 _ ⟨⟨⟨q, ?_⟩, ⟨ds, ?_⟩⟩,
        ⟨stubProviders.generateAnswer (joinDocs ds) q, ?_⟩⟩
      · rw [show applyUpdate st [("answer", Value.str (stubProviders.generateAnswer (joinDocs ds) q))] =
              ("answer", Value.str (stubProviders.generateAnswer (joinDocs ds) q)) :: st from rfl,
            getVal_cons_ne _ _ (by decide)]
        exact hq
      · rw [show applyUpdate st [("answer", Value.str (stubProviders.generateAnswer (joinDocs ds) q))] =
              ("answer", Value.str (stubProviders.generateAnswer (joinDocs ds) q)) :: st from rfl,
            getVal_cons_ne _ _ (by decide)]
        exact hd
      · simp [applyUpdate, getVal]
    · rintro st ⟨⟨⟨q, hq⟩, ⟨ds, hd⟩⟩, ⟨a, ha⟩⟩
      have hrun : (SearchRAG.graph stubProviders).runNode .check_confidence st =
          .ok ([("suggestions", Value.strs ["a suggestion"]),
                ("missing_info", Value.strs ["a missing fact"]),
                ("confidence", Value.rat (1/2))], 1) := by
        show SearchRAG.check_confidence stubProviders st = _
        unfold SearchRAG.check_confidence
        rw [hd, hq, ha]
        rfl
      have hc : getVal (applyUpdate st
          [("suggestions", Value.strs ["a suggestion"]),
           ("missing_info", Value.strs ["a missing fact"]),
           ("confidence", Value.rat (1/2))]) "confidence" = some (Value.rat (1/2)) := by
        simp [applyUpdate, getVal]
      have hnext : (SearchRAG.graph stubProviders).next
          (applyUpdate st
            [("suggestions", Value.strs ["a suggestion"]),
             ("missing_info", Value.strs ["a missing fact"]),
             ("confidence", Value.rat (1/2))]) .check_confidence =
          .ok (some .query_rewrite) := by
        show SearchRAG.next
          (applyUpdate st
            [("suggestions", Value.strs ["a suggestion"]),
             ("missing_info", Value.strs ["a missing fact"]),
             ("confidence", Value.rat (1/2))]) .check_confidence = .ok (some .query_rewrite)
        unfold SearchRAG.next SearchRAG.decide_end
        rw [hc]
        norm_num
      simp only [runFrom, hrun, hnext]
      refine ih.2.2.1 _ ⟨⟨⟨⟨q, ?_⟩, ⟨ds, ?_⟩⟩, ⟨a, ?_⟩⟩,
        ⟨["a suggestion"], ?_⟩, ⟨["a missing fact"], ?_⟩⟩
      · rw [getVal_applyUpdate_not_mem _ _ _ (by decide)]
        exact hq
      · rw [getVal_applyUpdate_not_mem _ _ _ (by decide)]
        exact hd
      · rw [getVal_applyUpdate_not_mem _ _ _ (by decide)]
        exact ha
      · simp [applyUpdate, getVal]
      · simp [applyUpdate, getVal]
    · rintro st ⟨⟨⟨⟨q, hq⟩, ⟨ds, hd⟩⟩, ⟨a, ha⟩⟩, ⟨sg, hs⟩, ⟨mi, hm⟩⟩
      have hrun : (SearchRAG.graph stubProviders).runNode .query_rewrite st =
          .ok ([(q, Value.str "a rewritten query")], 1) := by
        show SearchRAG.query_rewrite stubProviders st = _
        unfold SearchRAG.query_rewrite
        rw [hs, hq, hm]
        rfl
      have hnext : (SearchRAG.graph stubProviders).next
          (applyUpdate st [(q, Value.str "a rewritten query")]) .query_rewrite =
          .ok (some .web_search) := rfl
      simp only [runFrom, hrun, hnext]
      refine ih.2.2.2 _ ?_
      by_cases hqq : q = "question"
      · subst hqq
        exact ⟨"a rewritten query", by simp [applyUpdate, getVal]⟩
      · refine ⟨q, ?_⟩
        rw [show applyUpdate st [(q, Value.str "a rewritten query")] =
              (q, Value.str "a rewritten query") :: st from rfl,
            getVal_cons_ne _ _ hqq]
        exact hq
    · rintro st ⟨q, hq⟩
      have hrun : (SearchRAG.graph stubProviders).runNode .web_search st =
          .ok ([("documents",
                 Value.docs [{ page_content := String.intercalate "\n" (stubProviders.webSearch q),
                               metadata := [("source", "web_search")] }])], 0) := by
        show SearchRAG.web_search stubProviders st = _
        unfold SearchRAG.web_search
        rw [hq]
      have hnext : (SearchRAG.graph stubProviders).next
          (applyUpdate st
            [("documents",
              Value.docs [{ page_content := String.intercalate "\n" (stubProviders.webSearch q),
                            metadata := [("source", "web_search")] }])]) .web_search =
          .ok (some .generate) := rfl
      simp only [runFrom, hrun, hnext]
      refine ih.1 _ ⟨⟨q, ?_⟩,
        ⟨[{ page_content := String.intercalate "\n" (stubProviders.webSearch q),
            metadata := [("source", "web_search")] }], ?_⟩⟩
      · rw [show applyUpdate st
              [("documents",
                Value.docs [{ page_content := String.intercalate "\n" (stubProviders.webSearch q),
                              metadata := [("source", "web_search")] }])] =
              ("documents",
               Value.docs [{ page_content := String.intercalate "\n" (stubProviders.webSearch q),
                             metadata := [("source", "web_search")] }]) :: st from rfl,
            getVal_cons_ne _ _ (by decide)]
        exact hq
      · simp [applyUpdate, getVal]

/-- With the stub providers, once the Grade node runs on the stub
retriever's single relevant document, the execution enters the confidence
loop and never returns a final state. -/
theorem stubGradeNeverReturns (fuel : ℕ) (st : Dict)
    (hq : hasStr st "question")
    (hd : getVal st "documents" =
      some (Value.docs [{ page_content := "local doc", metadata := [] }])) :
    isOkResult (runFrom (SearchRAG.graph stubProviders) fuel .grade_documents st) = false := by
  cases fuel with
  | zero => rfl
  | succ fuel =>
    obtain ⟨q, hq⟩ := hq
    have hrun : (SearchRAG.graph stubProviders).runNode .grade_documents st =
        .ok ([("relevant", Value.str "yes")], 1) := by
      show SearchRAG.check_documents stubProviders st = _
      unfold SearchRAG.check_documents
      rw [hd, hq]
      rfl
    have hnext : (SearchRAG.graph stubProviders).next
        (applyUpdate st [("relevant", Value.str "yes")]) .grade_documents =
        .ok (some .generate) := by
      show SearchRAG.next (applyUpdate st [("relevant", Value.str "yes")]) .grade_documents =
        .ok (some .generate)
      unfold SearchRAG.next SearchRAG.decide_to_generate
      simp [applyUpdate, getVal]
    simp only [runFrom, hrun, hnext]
    refine (stubLoopNeverReturns fuel).1 _ ⟨⟨q, ?_⟩,
      ⟨[{ page_content := "local doc", metadata := [] }], ?_⟩⟩
    · rw [show applyUpdate st [("relevant", Value.str "yes")] =
            ("relevant", Value.str "yes") :: st from rfl,
          getVal_cons_ne _ _ (by decide)]
      exact hq
    · rw [show applyUpdate st [("relevant", Value.str "yes")] =
            ("relevant", Value.str "yes") :: st from rfl,
          getVal_cons_ne _ _ (by decide)]
      exact hd

/-- C2 (code bug): the repository configures no iteration cap and `invoke`
handles no error; with stub providers whose confidence is always `1/2`, the
search invocation never returns a state — for every step budget the
fuel-bounded executor ends in an error (the underlying recursion error),
never in a best-effort Answer. -/
theorem c2_no_cap_invoke_never_returns_best_effort :
    ∀ (fuel : ℕ) (q : String),
      isOkResult (SearchRAG.invoke stubProviders fuel q) = false := by
  intro fuel q
  cases fuel with
  | zero => rfl
  | succ fuel =>
    have hrun : (SearchRAG.graph stubProviders).runNode .retrieve (initState q) =
        .ok ([("documents", Value.docs [{ page_content := "local doc", metadata := [] }])], 0) :=
      rfl
    have hnext : (SearchRAG.graph stubProviders).next
        (applyUpdate (initState q)
          [("documents", Value.docs [{ page_content := "local doc", metadata := [] }])])
        .retrieve = .ok (some .grade_documents) := rfl
    show isOkResult (runFrom (SearchRAG.graph stubProviders) (fuel + 1) .retrieve (initState q)) =
      false
    simp only [runFrom, hrun, hnext]
    refine stubGradeNeverReturns fuel _ ⟨q, ?_⟩ ?_
    · rw [show applyUpdate (initState q)
            [("documents", Value.docs [{ page_content := "local doc", metadata := [] }])] =
            ("documents", Value.docs [{ page_content := "local doc", metadata := [] }]) ::
              initState q from rfl,
          getVal_cons_ne _ _ (by decide)]
      simp [initState, getVal]
    · simp [applyUpdate, getVal]
